import Mathlib

/-!
Shallow embedding of the Korangar gameplay protocol/event layer:
the packet handlers registered in
`korangar-network-client/src/packet_versions/version_20220406.rs`,
the connection bookkeeping in `korangar-network-client/src/server.rs`,
the event buffer and provider trait in `korangar-gameplay/src/lib.rs`
and `types.rs`, and the offline backend in `korangar-offline/src/lib.rs`.

Wire-level integer fields (u8/u16/u32/i64 and opaque ids of the external
`ragnarok_packets` crate) are modelled as `Nat`; strings as `String`.
A Rust panic (`expect`) is modelled as `none` in an `Option` result.
-/

namespace Korangar

/-- Sex enumeration of the external packet crate; only the variants used in
the embedded code are needed. -/
inductive Sex where
  | Male
  | Female
  deriving DecidableEq, Repr

/-- Marker type used by `InventoryItem<NoMetadata>` in the handlers. -/
inductive NoMetadata where
  | mk
  deriving DecidableEq, Repr

/-- Message colors used by the chat-message events produced in
`version_20220406.rs` (the full enum lives in the gameplay crate). -/
inductive MessageColor where
  | Broadcast
  | Server
  | Error
  | Information
  | Rgb (red : Nat) (green : Nat) (blue : Nat)
  deriving DecidableEq, Repr

/-- Payload of a `RegularItemListPacket` entry, with the fields destructured
by the handler in `version_20220406.rs`. -/
structure RegularItemInformation where
  index : Nat
  item_id : Nat
  item_type : Nat
  amount : Nat
  equipped_position : Nat
  slot : Nat
  hire_expiration_date : Nat
  flags : Nat
  deriving DecidableEq, Repr

/-- Payload of an `EquippableItemListPacket` entry, with the fields
destructured by the handler in `version_20220406.rs`. -/
structure EquippableItemInformation where
  index : Nat
  item_id : Nat
  item_type : Nat
  equip_position : Nat
  equipped_position : Nat
  slot : Nat
  hire_expiration_date : Nat
  bind_on_equip_type : Nat
  w_item_sprite_number : Nat
  option_count : Nat
  option_data : List Nat
  refinement_level : Nat
  enchantment_level : Nat
  flags : Nat
  deriving DecidableEq, Repr

/-- Variant payload of an inventory item, as constructed by the handlers. -/
inductive InventoryItemDetails where
  | Regular (amount : Nat) (equipped_position : Nat) (flags : Nat)
  | Equippable (equip_position : Nat) (equipped_position : Nat)
      (bind_on_equip_type : Nat) (w_item_sprite_number : Nat)
      (option_count : Nat) (option_data : List Nat)
      (refinement_level : Nat) (enchantment_level : Nat) (flags : Nat)
  deriving DecidableEq, Repr

/-- Normalized inventory item (`InventoryItem<NoMetadata>`), as constructed
by the item-list handlers in `version_20220406.rs`. -/
structure InventoryItem where
  index : Nat
  metadata : NoMetadata
  item_id : Nat
  item_type : Nat
  slot : Nat
  hire_expiration_date : Nat
  details : InventoryItemDetails
  deriving DecidableEq, Repr

/-- Conversion of a regular item entry into an inventory item, exactly as in
the `RegularItemListPacket` handler closure. -/
def regularItemToInventoryItem (item_information : RegularItemInformation) : InventoryItem :=
  { index := item_information.index
    metadata := NoMetadata.mk
    item_id := item_information.item_id
    item_type := item_information.item_type
    slot := item_information.slot
    hire_expiration_date := item_information.hire_expiration_date
    details := InventoryItemDetails.Regular
      item_information.amount
      item_information.equipped_position
      item_information.flags }

/-- Conversion of an equippable item entry into an inventory item, exactly as
in the `EquippableItemListPacket` handler closure. -/
def equippableItemToInventoryItem (item : EquippableItemInformation) : InventoryItem :=
  { index := item.index
    metadata := NoMetadata.mk
    item_id := item.item_id
    item_type := item.item_type
    slot := item.slot
    hire_expiration_date := item.hire_expiration_date
    details := InventoryItemDetails.Equippable
      item.equip_position
      item.equipped_position
      item.bind_on_equip_type
      item.w_item_sprite_number
      item.option_count
      item.option_data
      item.refinement_level
      item.enchantment_level
      item.flags }

/-- Character-server descriptor of the external packet crate; the offline
backend constructs one with `CharacterServerInformation::new(address, port,
name, ...)` passing three further numeric fields. -/
structure CharacterServerInformation where
  server_address : List Nat
  port : Nat
  name : String
  user_count : Nat
  server_type : Nat
  display_new : Nat
  deriving DecidableEq, Repr

/-- Login-session continuation data (`LoginServerLoginData` in `types.rs`). -/
structure LoginServerLoginData where
  account_id : Nat
  login_id1 : Nat
  login_id2 : Nat
  sex : Sex
  deriving DecidableEq, Repr

/-- Unified login failure reasons across packet versions
(`UnifiedLoginFailedReason` in `korangar-gameplay/src/types.rs`). -/
inductive UnifiedLoginFailedReason where
  | ServerClosed
  | AlreadyLoggedIn
  | AlreadyOnline
  | UnregisteredId
  | IncorrectPassword
  | IdExpired
  | RejectedFromServer
  | BlockedByGMTeam
  | GameOutdated
  | LoginProhibitedUntil
  | ServerFull
  | CompanyAccountLimitReached
  deriving DecidableEq, Repr

/-- Wire reason of `LoginFailedPacket`, as matched exhaustively by the
registered handler. -/
inductive LoginFailedReason where
  | ServerClosed
  | AlreadyLoggedIn
  | AlreadyOnline
  deriving DecidableEq, Repr

/-- Wire reason of `LoginFailedPacket2`, as matched exhaustively by the
registered handler. -/
inductive LoginFailedReason2 where
  | UnregisteredId
  | IncorrectPassword
  | IdExpired
  | RejectedFromServer
  | BlockedByGMTeam
  | GameOutdated
  | LoginProhibitedUntil
  | ServerFull
  | CompanyAccountLimitReached
  deriving DecidableEq, Repr

/-- Character descriptor pushed by the offline backend's
`request_character_list`; field list taken from the literal in
`korangar-offline/src/lib.rs`. -/
structure CharacterInformation where
  character_id : Nat
  experience : Nat
  money : Nat
  job_experience : Nat
  job_level : Nat
  body_state : Nat
  health_state : Nat
  effect_state : Nat
  virtue : Nat
  honor : Nat
  stat_points : Nat
  health_points : Nat
  maximum_health_points : Nat
  spell_points : Nat
  maximum_spell_points : Nat
  movement_speed : Nat
  job : Nat
  head : Nat
  body : Nat
  weapon : Nat
  base_level : Nat
  sp_point : Nat
  accessory : Nat
  shield : Nat
  accessory2 : Nat
  accessory3 : Nat
  head_palette : Nat
  body_palette : Nat
  name : String
  strength : Nat
  agility : Nat
  vitality : Nat
  intelligence : Nat
  dexterity : Nat
  luck : Nat
  character_number : Nat
  hair_color : Nat
  b_is_changed_char : Nat
  map_name : String
  deletion_reverse_date : Nat
  robe_palette : Nat
  character_slot_change_count : Nat
  character_name_change_count : Nat
  sex : Sex
  deriving DecidableEq, Repr

/-- Gameplay events; the variants produced by the embedded handlers and
offline commands (the full enum has many more variants). -/
inductive GameplayEvent where
  | LoginServerConnected (character_servers : List CharacterServerInformation)
      (login_data : LoginServerLoginData)
  | LoginServerConnectionFailed (reason : UnifiedLoginFailedReason) (message : String)
  | CharacterServerConnected (normal_slot_count : Nat)
  | CharacterList (characters : List CharacterInformation)
  | ChatMessage (text : String) (color : MessageColor)
  | SetInventory (items : List InventoryItem)
  deriving DecidableEq, Repr

/-- Wire packet `LoginServerLoginSuccessPacket`, with the fields read by the
registered handler. -/
structure LoginServerLoginSuccessPacket where
  character_server_information : List CharacterServerInformation
  account_id : Nat
  login_id1 : Nat
  login_id2 : Nat
  sex : Sex
  deriving DecidableEq, Repr

/-- Wire packet `LoginFailedPacket`. -/
structure LoginFailedPacket where
  reason : LoginFailedReason
  deriving DecidableEq, Repr

/-- Wire packet `LoginFailedPacket2`. -/
structure LoginFailedPacket2 where
  reason : LoginFailedReason2
  deriving DecidableEq, Repr

/-- Handler registered for `LoginServerLoginSuccessPacket` in
`register_login_server_packets`. -/
def handleLoginServerLoginSuccess (packet : LoginServerLoginSuccessPacket) : List GameplayEvent :=
  [GameplayEvent.LoginServerConnected
    packet.character_server_information
    { account_id := packet.account_id
      login_id1 := packet.login_id1
      login_id2 := packet.login_id2
      sex := packet.sex }]

/-- Reason translation of the `LoginFailedPacket` handler in
`register_login_server_packets`: the exhaustive match on `packet.reason`. -/
def translateLoginFailedReason (reason : LoginFailedReason) : UnifiedLoginFailedReason × String :=
  match reason with
  | LoginFailedReason.ServerClosed => (UnifiedLoginFailedReason.ServerClosed, "Server closed")
  | LoginFailedReason.AlreadyLoggedIn =>
      (UnifiedLoginFailedReason.AlreadyLoggedIn, "Someone has already logged in with this id")
  | LoginFailedReason.AlreadyOnline => (UnifiedLoginFailedReason.AlreadyOnline, "Already online")

/-- Reason translation of the `LoginFailedPacket2` handler in
`register_login_server_packets`: the exhaustive match on `packet.reason`. -/
def translateLoginFailedReason2 (reason : LoginFailedReason2) : UnifiedLoginFailedReason × String :=
  match reason with
  | LoginFailedReason2.UnregisteredId => (UnifiedLoginFailedReason.UnregisteredId, "Unregistered id")
  | LoginFailedReason2.IncorrectPassword => (UnifiedLoginFailedReason.IncorrectPassword, "Incorrect password")
  | LoginFailedReason2.IdExpired => (UnifiedLoginFailedReason.IdExpired, "Id has expired")
  | LoginFailedReason2.RejectedFromServer =>
      (UnifiedLoginFailedReason.RejectedFromServer, "Rejected from server")
  | LoginFailedReason2.BlockedByGMTeam => (UnifiedLoginFailedReason.BlockedByGMTeam, "Blocked by gm team")
  | LoginFailedReason2.GameOutdated => (UnifiedLoginFailedReason.GameOutdated, "Game outdated")
  | LoginFailedReason2.LoginProhibitedUntil =>
      (UnifiedLoginFailedReason.LoginProhibitedUntil, "Login prohibited until")
  | LoginFailedReason2.ServerFull => (UnifiedLoginFailedReason.ServerFull, "Server is full")
  | LoginFailedReason2.CompanyAccountLimitReached =>
      (UnifiedLoginFailedReason.CompanyAccountLimitReached, "Company account limit reached")

/-- Handler registered for `LoginFailedPacket` in
`register_login_server_packets`. -/
def handleLoginFailed (packet : LoginFailedPacket) : List GameplayEvent :=
  let pair := translateLoginFailedReason packet.reason
  [GameplayEvent.LoginServerConnectionFailed pair.1 pair.2]

/-- Handler registered for `LoginFailedPacket2` in
`register_login_server_packets`. -/
def handleLoginFailed2 (packet : LoginFailedPacket2) : List GameplayEvent :=
  let pair := translateLoginFailedReason2 packet.reason
  [GameplayEvent.LoginServerConnectionFailed pair.1 pair.2]

/-- Map-server packets relevant to the inventory-reassembly handlers and the
overhead-message handler of `register_map_server_packets`. -/
inductive MapServerPacket where
  | InventoyStart
  | RegularItemList (item_information : List RegularItemInformation)
  | EquippableItemList (item_information : List EquippableItemInformation)
  | InventoyEnd
  | OverheadMessage (message : String)
  deriving DecidableEq, Repr

/-- Transient inventory-reassembly accumulator: the
`Rc<RefCell<Option<Vec<InventoryItem<NoMetadata>>>>>` shared by the four
inventory handlers, passed explicitly here. -/
abbrev InventoryAccumulator := Option (List InventoryItem)

/-- One dispatch through the registered map-server handlers touching the
inventory accumulator, with explicit state passing. The result is the new
accumulator and the produced events; `none` models a Rust panic (the
`expect("Unexpected inventory packet")` and
`expect("Unexpected inventory end packet")` calls). -/
def handleMapServerPacket (packet : MapServerPacket) (acc : InventoryAccumulator) :
    Option (InventoryAccumulator × List GameplayEvent) :=
  match packet with
  | MapServerPacket.InventoyStart => some (some [], [])
  | MapServerPacket.RegularItemList item_information =>
      match acc with
      | some items =>
          some (some (items ++ item_information.map regularItemToInventoryItem), [])
      | none => none
  | MapServerPacket.EquippableItemList item_information =>
      match acc with
      | some items =>
          some (some (items ++ item_information.map equippableItemToInventoryItem), [])
      | none => none
  | MapServerPacket.InventoyEnd =>
      match acc with
      | some items => some (none, [GameplayEvent.SetInventory items])
      | none => none
  | MapServerPacket.OverheadMessage message =>
      some (acc, [GameplayEvent.ChatMessage message MessageColor.Broadcast])

/-- Run of a packet sequence through the map-server handlers, threading the
accumulator and concatenating the produced events; `none` when any handler
panics. -/
def runMapServerPackets (packets : List MapServerPacket) (acc : InventoryAccumulator) :
    Option (InventoryAccumulator × List GameplayEvent) :=
  match packets with
  | [] => some (acc, [])
  | packet :: rest =>
      match handleMapServerPacket packet acc with
      | none => none
      | some (acc1, events1) =>
          match runMapServerPackets rest acc1 with
          | none => none
          | some (acc2, events2) => some (acc2, events1 ++ events2)

/-- Predicate: the packet is one of the two item-list packets. -/
def isItemListPacket (packet : MapServerPacket) : Prop :=
  match packet with
  | MapServerPacket.RegularItemList _ => True
  | MapServerPacket.EquippableItemList _ => True
  | _ => False

instance (packet : MapServerPacket) : Decidable (isItemListPacket packet) := by
  cases packet <;> simp [isItemListPacket] <;> infer_instance

/-- Items carried by an item-list packet, after the handler's per-item
conversion; empty for other packets. -/
def packetItems (packet : MapServerPacket) : List InventoryItem :=
  match packet with
  | MapServerPacket.RegularItemList item_information =>
      item_information.map regularItemToInventoryItem
  | MapServerPacket.EquippableItemList item_information =>
      item_information.map equippableItemToInventoryItem
  | _ => []

/-- Supported packet versions (`SupportedPacketVersion` in the gameplay
crate). -/
inductive SupportedPacketVersion where
  | V20220406
  deriving DecidableEq, Repr

/-- Per-phase connection state of the networked backend
(`ServerConnection` in `korangar-network-client/src/server.rs`); the channel
endpoints of the `Connected` variant are modelled as the queues they carry. -/
inductive ServerConnection where
  | Connected (action_sender : List (List Nat)) (event_receiver : List GameplayEvent)
      (packet_version : SupportedPacketVersion)
  | ClosingManually
  | Disconnected
  deriving DecidableEq, Repr

namespace ServerConnection

/-- Embedding of `ServerConnection::take`: a
`std::mem::replace(self, ServerConnection::Disconnected)`, returning the old
value and the new contents of the place. -/
def take (s : ServerConnection) : ServerConnection × ServerConnection :=
  (s, ServerConnection.Disconnected)

end ServerConnection

/-- Error for commands issued while not connected (`NotConnectedError` in
`types.rs`). -/
inductive NotConnectedError where
  | mk
  deriving DecidableEq, Repr

/-- Ordered gameplay-event buffer (`GameplayEventBuffer` in
`korangar-gameplay/src/lib.rs`), a wrapper around a vector. -/
structure GameplayEventBuffer where
  events : List GameplayEvent
  deriving DecidableEq, Repr

namespace GameplayEventBuffer

/-- Embedding of `GameplayEventBuffer::new`. -/
def new : GameplayEventBuffer := { events := [] }

/-- Embedding of `GameplayEventBuffer::push`. -/
def push (buffer : GameplayEventBuffer) (event : GameplayEvent) : GameplayEventBuffer :=
  { events := buffer.events ++ [event] }

/-- Embedding of `GameplayEventBuffer::drain`: yields the drained events and
the emptied buffer. -/
def drain (buffer : GameplayEventBuffer) : List GameplayEvent × GameplayEventBuffer :=
  (buffer.events, { events := [] })

end GameplayEventBuffer

/-- Offline backend state (`OfflineSystem` in `korangar-offline/src/lib.rs`).
`Instant` is modelled as a `Nat` tick; `Library` is a unit struct in the
source, and the two optional world states are opaque here because no embedded
operation touches their contents. -/
structure OfflineSystem where
  system_start : Nat
  event_buffer : List GameplayEvent
  connected_to_login_server : Bool
  connected_to_character_server : Bool
  connected_to_map_server : Bool
  library : Unit
  world_state : Option Unit
  map_state : Option Unit
  deriving DecidableEq, Repr

namespace OfflineSystem

/-- Embedding of `OfflineSystem::new` (with `Instant::now()` as the given
tick), returning the system and a fresh event buffer. -/
def new (now : Nat) : OfflineSystem × GameplayEventBuffer :=
  ({ system_start := now
     event_buffer := []
     connected_to_login_server := false
     connected_to_character_server := false
     connected_to_map_server := false
     library := ()
     world_state := none
     map_state := none },
   GameplayEventBuffer.new)

/-- Embedding of `OfflineSystem::get_events`: drains the internal event
vector, in order, into the caller-supplied buffer. -/
def get_events (s : OfflineSystem) (events : GameplayEventBuffer) :
    OfflineSystem × GameplayEventBuffer :=
  ({ s with event_buffer := [] },
   { events := events.events ++ s.event_buffer })

/-- Event pushed by `OfflineSystem::connect_to_login_server`: one character
server built with
`CharacterServerInformation::new(ServerAddress::new([0,0,0,0]), 1234,
"Korangar Offline".to_string(), 0, 0, 0)` and all-zero login data with
`Sex::Female`. -/
def offlineLoginServerConnectedEvent : GameplayEvent :=
  GameplayEvent.LoginServerConnected
    [{ server_address := [0, 0, 0, 0]
       port := 1234
       name := "Korangar Offline"
       user_count := 0
       server_type := 0
       display_new := 0 }]
    { account_id := 0
      login_id1 := 0
      login_id2 := 0
      sex := Sex.Female }

/-- Embedding of `OfflineSystem::connect_to_login_server`; the packet
version, address, username and password parameters are present but unused
(`_`-prefixed in the source). -/
def connect_to_login_server (s : OfflineSystem) (_packet_version : SupportedPacketVersion)
    (_address : Nat) (_username : String) (_password : String) : OfflineSystem :=
  { s with
    connected_to_login_server := true
    event_buffer := s.event_buffer ++ [offlineLoginServerConnectedEvent] }

/-- Embedding of `OfflineSystem::is_login_server_connected`. -/
def is_login_server_connected (s : OfflineSystem) : Bool :=
  s.connected_to_login_server

/-- Embedding of `OfflineSystem::is_character_server_connected`. -/
def is_character_server_connected (s : OfflineSystem) : Bool :=
  s.connected_to_character_server

/-- Embedding of `OfflineSystem::is_map_server_connected`. -/
def is_map_server_connected (s : OfflineSystem) : Bool :=
  s.connected_to_map_server

/-- Character pushed by `OfflineSystem::request_character_list`, copied from
the literal in the source. -/
def offlineCharacterInformation : CharacterInformation :=
  { character_id := 150000
    experience := 3447
    money := 20000
    job_experience := 44
    job_level := 6
    body_state := 0
    health_state := 0
    effect_state := 0
    virtue := 0
    honor := 0
    stat_points := 1273
    health_points := 1060
    maximum_health_points := 1060
    spell_points := 216
    maximum_spell_points := 216
    movement_speed := 150
    job := 0
    head := 0
    body := 0
    weapon := 1
    base_level := 99
    sp_point := 5
    accessory := 0
    shield := 0
    accessory2 := 0
    accessory3 := 0
    head_palette := 0
    body_palette := 0
    name := "Sasami"
    strength := 99
    agility := 99
    vitality := 99
    intelligence := 99
    dexterity := 99
    luck := 99
    character_number := 0
    hair_color := 0
    b_is_changed_char := 1
    map_name := "prontera.gat"
    deletion_reverse_date := 0
    robe_palette := 0
    character_slot_change_count := 0
    character_name_change_count := 0
    sex := Sex.Female }

/-- Embedding of `OfflineSystem::request_character_list`: pushes one
`CharacterList` event and returns `Ok(())`, with no connection-state check. -/
def request_character_list (s : OfflineSystem) :
    Except NotConnectedError Unit × OfflineSystem :=
  (Except.ok (),
   { s with event_buffer :=
       s.event_buffer ++ [GameplayEvent.CharacterList [offlineCharacterInformation]] })

/-- Embedding of `OfflineSystem::add_friend`: returns `Ok(())` and does
nothing, with no connection-state check. -/
def add_friend (s : OfflineSystem) (_name : String) :
    Except NotConnectedError Unit × OfflineSystem :=
  (Except.ok (), s)

/-- Event production into the offline event vector: each implemented command
does `self.event_buffer.push(event)` some number of times; this folds such a
sequence of pushes. -/
def produce_events (s : OfflineSystem) (events : List GameplayEvent) : OfflineSystem :=
  { s with event_buffer := s.event_buffer ++ events }

end OfflineSystem

/-- Per-phase connection lifecycle state,
`Disconnected → Connecting → Connected → Closing → Disconnected`. -/
inductive ConnectionState where
  | Disconnected
  | Connecting
  | Connected
  | Closing
  deriving DecidableEq, Repr

/-- Modelled from the spec: the per-phase command path of the networked
backend, whose `GameplayProvider` implementation is not under `src/` (only
the trait, `server.rs` and the packet registration are). State of one phase:
its lifecycle state and its queued outbound packets. -/
structure NetworkedPhase where
  state : ConnectionState
  outbound : List (List Nat)
  deriving DecidableEq, Repr

/-- Modelled from the spec: a phase-scoped gameplay command of the networked
backend. Spec 4.3: every command fails with `NotConnectedError` when the
relevant phase is not Connected, synchronously and with no side effect;
otherwise it serializes one outbound packet onto the phase's command queue. -/
def networkedCommand (packet_bytes : List Nat) (phase : NetworkedPhase) :
    Except NotConnectedError Unit × NetworkedPhase :=
  match phase.state with
  | ConnectionState.Connected =>
      (Except.ok (), { phase with outbound := phase.outbound ++ [packet_bytes] })
  | _ => (Except.error NotConnectedError.mk, phase)

/-- Helper: a singleton list of one `LoginServerConnectionFailed` event
determines its (reason, message) payload uniquely. -/
theorem uniqueFailurePair (u : UnifiedLoginFailedReason) (m : String) :
    ∃! pair : UnifiedLoginFailedReason × String,
      ([GameplayEvent.LoginServerConnectionFailed u m] : List GameplayEvent) =
        [GameplayEvent.LoginServerConnectionFailed pair.1 pair.2] := by
  refine ⟨(u, m), rfl, ?_⟩
  rintro ⟨u2, m2⟩ h
  simp only [List.cons.injEq, GameplayEvent.LoginServerConnectionFailed.injEq, and_true] at h
  simp [h.1, h.2]

/-- C2: every wire-level login-failure reason of both protocol epochs
(`LoginFailedPacket` and `LoginFailedPacket2`) is mapped by the registered
login-server handlers to exactly one event carrying exactly one canonical
`UnifiedLoginFailedReason` and one fixed message string; the mapping is
total, with no wire variant left unmapped. -/
theorem loginFailureMappingTotal :
    (∀ reason : LoginFailedReason,
      ∃! pair : UnifiedLoginFailedReason × String,
        handleLoginFailed { reason := reason } =
          [GameplayEvent.LoginServerConnectionFailed pair.1 pair.2]) ∧
    (∀ reason : LoginFailedReason2,
      ∃! pair : UnifiedLoginFailedReason × String,
        handleLoginFailed2 { reason := reason } =
          [GameplayEvent.LoginServerConnectionFailed pair.1 pair.2]) := by
  constructor
  · intro reason
    cases reason <;> exact uniqueFailurePair _ _
  · intro reason
    cases reason <;> exact uniqueFailurePair _ _

/-- C7: a `LoginFailedPacket2` with wire reason `IncorrectPassword` is
handled into exactly one `LoginServerConnectionFailed` event with the
canonical reason `IncorrectPassword` and the fixed message
"Incorrect password". -/
theorem incorrectPasswordTranslation :
    handleLoginFailed2 { reason := LoginFailedReason2.IncorrectPassword } =
      [GameplayEvent.LoginServerConnectionFailed
        UnifiedLoginFailedReason.IncorrectPassword "Incorrect password"] := rfl

/-- C8: an `OverheadMessagePacket` is handled into exactly one `ChatMessage`
event whose text is the packet message and whose color is
`MessageColor::Broadcast`, regardless of the inventory accumulator, which it
leaves unchanged. -/
theorem overheadMessageIsBroadcastChat (message : String) (acc : InventoryAccumulator) :
    handleMapServerPacket (MapServerPacket.OverheadMessage message) acc =
      some (acc, [GameplayEvent.ChatMessage message MessageColor.Broadcast]) := rfl

/-- C9: `ServerConnection::take` returns the value the connection held
before the call and leaves the place equal to
`ServerConnection::Disconnected`. -/
theorem serverConnectionTakeSpec (s : ServerConnection) :
    (ServerConnection.take s).1 = s ∧
      (ServerConnection.take s).2 = ServerConnection.Disconnected :=
  ⟨rfl, rfl⟩

/-- Helper: running a sequence of item-list packets followed by the End
packet, from an active accumulator, emits exactly one `SetInventory` event
holding the accumulated items followed by the packet items in arrival
order, and deactivates the accumulator. -/
theorem run_item_lists_then_end (packets : List MapServerPacket)
    (items : List InventoryItem)
    (h : ∀ p ∈ packets, isItemListPacket p) :
    runMapServerPackets (packets ++ [MapServerPacket.InventoyEnd]) (some items) =
      some (none, [GameplayEvent.SetInventory (items ++ packets.flatMap packetItems)]) := by
  induction packets generalizing items with
  | nil => simp [runMapServerPackets, handleMapServerPacket]
  | cons packet rest ih =>
      have hp : isItemListPacket packet := h packet (by simp)
      have hrest : ∀ p ∈ rest, isItemListPacket p := fun p hm => h p (by simp [hm])
      cases packet with
      | RegularItemList l =>
          simp [runMapServerPackets, handleMapServerPacket, packetItems,
            ih _ hrest, List.append_assoc]
      | EquippableItemList l =>
          simp [runMapServerPackets, handleMapServerPacket, packetItems,
            ih _ hrest, List.append_assoc]
      | InventoyStart => exact absurd hp (by simp [isItemListPacket])
      | InventoyEnd => exact absurd hp (by simp [isItemListPacket])
      | OverheadMessage m => exact absurd hp (by simp [isItemListPacket])

/-- C1: a run of the map-server inventory handlers consisting of a Start
packet, any sequence of item-list packets, then an End packet, starting with
no active accumulator, panics nowhere and emits exactly one `SetInventory`
event whose item list is the order-preserving concatenation of the packets'
items, of length equal to the sum of the per-packet counts. -/
theorem inventoryReassemblyConcat (packets : List MapServerPacket)
    (h : ∀ p ∈ packets, isItemListPacket p) :
    runMapServerPackets
        (MapServerPacket.InventoyStart :: (packets ++ [MapServerPacket.InventoyEnd])) none =
      some (none, [GameplayEvent.SetInventory (packets.flatMap packetItems)]) ∧
    (packets.flatMap packetItems).length =
      (packets.map fun p => (packetItems p).length).sum := by
  constructor
  · simp [runMapServerPackets, handleMapServerPacket, run_item_lists_then_end packets [] h]
  · rw [List.length_flatMap]
    rfl

/-- Sample regular-item payload for concrete runs. -/
def sampleRegularItem (index item_id amount : Nat) : RegularItemInformation :=
  { index := index
    item_id := item_id
    item_type := 0
    amount := amount
    equipped_position := 0
    slot := 0
    hire_expiration_date := 0
    flags := 0 }

/-- Sample equippable-item payload for concrete runs. -/
def sampleEquippableItem (index item_id : Nat) : EquippableItemInformation :=
  { index := index
    item_id := item_id
    item_type := 0
    equip_position := 0
    equipped_position := 0
    slot := 0
    hire_expiration_date := 0
    bind_on_equip_type := 0
    w_item_sprite_number := 0
    option_count := 0
    option_data := []
    refinement_level := 0
    enchantment_level := 0
    flags := 0 }

/-- Concrete packet sequence of the spec scenario: one regular item-list
packet with 3 items, then one equippable item-list packet with 2 items. -/
def sampleItemListPackets : List MapServerPacket :=
  [MapServerPacket.RegularItemList
    [sampleRegularItem 1 501 10, sampleRegularItem 2 502 1, sampleRegularItem 3 503 5],
   MapServerPacket.EquippableItemList
    [sampleEquippableItem 4 1101, sampleEquippableItem 5 2301]]

/-- Witness for C1: the scenario Start, RegularItemList(3 items),
EquippableItemList(2 items), End yields exactly one `SetInventory` event
with the 5 items in arrival order. -/
theorem inventoryReassemblyConcat_witness :
    (∀ p ∈ sampleItemListPackets, isItemListPacket p) ∧
    runMapServerPackets
        (MapServerPacket.InventoyStart ::
          (sampleItemListPackets ++ [MapServerPacket.InventoyEnd])) none =
      some (none,
        [GameplayEvent.SetInventory
          [regularItemToInventoryItem (sampleRegularItem 1 501 10),
           regularItemToInventoryItem (sampleRegularItem 2 502 1),
           regularItemToInventoryItem (sampleRegularItem 3 503 5),
           equippableItemToInventoryItem (sampleEquippableItem 4 1101),
           equippableItemToInventoryItem (sampleEquippableItem 5 2301)]]) ∧
    (sampleItemListPackets.flatMap packetItems).length = 3 + 2 := by
  refine ⟨by decide, ?_, by decide⟩
  rw [(inventoryReassemblyConcat sampleItemListPackets (by decide)).1]
  decide

/-- C4 counterexample: the claim states that an item-list packet handled
with no active accumulator does not panic; in the code the handler calls
`expect("Unexpected inventory packet")`, which panics (modelled as `none`),
already for an empty `RegularItemListPacket`. -/
theorem itemListWithoutStartPanics_counterexample :
    ¬ handleMapServerPacket (MapServerPacket.RegularItemList []) none ≠ none := by
  decide

/-- C4 amended: an item-list packet handled while no inventory reassembly
accumulator is active panics via the handler's `expect` call (and hence
produces no `SetInventory` event). -/
theorem itemListWithoutStartPanics (packet : MapServerPacket)
    (h : isItemListPacket packet) :
    handleMapServerPacket packet none = none := by
  cases packet with
  | RegularItemList l => rfl
  | EquippableItemList l => rfl
  | InventoyStart => exact absurd h (by simp [isItemListPacket])
  | InventoyEnd => exact absurd h (by simp [isItemListPacket])
  | OverheadMessage m => exact absurd h (by simp [isItemListPacket])

/-- Witness for the amended C4 at a concrete item-list packet. -/
theorem itemListWithoutStartPanics_witness :
    isItemListPacket (MapServerPacket.EquippableItemList []) ∧
    handleMapServerPacket (MapServerPacket.EquippableItemList []) none = none :=
  ⟨by decide, itemListWithoutStartPanics (MapServerPacket.EquippableItemList []) (by decide)⟩

/-- C3 counterexample: the claim states that every phase-scoped command
called while the phase is not Connected returns `Err(NotConnectedError)`
with no event pushed, including for `OfflineSystem`; on a fresh
`OfflineSystem`, whose character phase is not connected,
`request_character_list` returns `Ok(())` and pushes a `CharacterList`
event, and `add_friend` (map phase not connected) also returns `Ok(())`. -/
theorem commandWhenNotConnected_counterexample :
    (OfflineSystem.new 0).1.is_character_server_connected = false ∧
    ((OfflineSystem.new 0).1.request_character_list.1 = Except.ok () ∧
      (OfflineSystem.new 0).1.request_character_list.2.event_buffer =
        [GameplayEvent.CharacterList [OfflineSystem.offlineCharacterInformation]]) ∧
    ((OfflineSystem.new 0).1.is_map_server_connected = false ∧
      ((OfflineSystem.new 0).1.add_friend "Sasami").1 = Except.ok ()) :=
  ⟨rfl, ⟨rfl, rfl⟩, rfl, rfl⟩

/-- C3 amended: for the networked backend (modelled from the spec, since its
GameplayProvider implementation is not under src/), a phase-scoped command
issued while the phase is not Connected returns `NotConnectedError`
synchronously and leaves the phase state unchanged, queuing no outbound
packet; `OfflineSystem`, by contrast, does not check connection state: its
implemented commands return `Ok(())` regardless, `request_character_list`
even pushing a `CharacterList` event, and all other state is untouched. -/
theorem commandWhenNotConnected (phase : NetworkedPhase) (packet_bytes : List Nat)
    (h : phase.state ≠ ConnectionState.Connected) :
    networkedCommand packet_bytes phase = (Except.error NotConnectedError.mk, phase) ∧
    (∀ (s : OfflineSystem) (name : String), s.add_friend name = (Except.ok (), s)) ∧
    (∀ s : OfflineSystem,
      s.request_character_list.1 = Except.ok () ∧
      s.request_character_list.2 =
        { s with event_buffer := s.event_buffer ++
            [GameplayEvent.CharacterList [OfflineSystem.offlineCharacterInformation]] }) := by
  refine ⟨?_, fun s name => rfl, fun s => ⟨rfl, rfl⟩⟩
  unfold networkedCommand
  cases hs : phase.state with
  | Connected => exact absurd hs h
  | Disconnected => rfl
  | Connecting => rfl
  | Closing => rfl

/-- Witness for the amended C3 at a concrete disconnected phase. -/
theorem commandWhenNotConnected_witness :
    ({ state := ConnectionState.Disconnected, outbound := [] } : NetworkedPhase).state ≠
      ConnectionState.Connected ∧
    networkedCommand [7] { state := ConnectionState.Disconnected, outbound := [] } =
      (Except.error NotConnectedError.mk,
       { state := ConnectionState.Disconnected, outbound := [] }) :=
  ⟨by decide,
   (commandWhenNotConnected
      { state := ConnectionState.Disconnected, outbound := [] } [7] (by decide)).1⟩

/-- C5: the offline provider's `get_events` drains monotonically: one call
moves every buffered event, in order, into the caller's buffer and empties
the provider's buffer; an immediate second call adds nothing; events
produced after a drain appear exactly once, in arrival order, in the next
drain, after which the provider's buffer is empty again. -/
theorem getEventsDrainsMonotonically (s : OfflineSystem)
    (buffer buffer2 : GameplayEventBuffer) (produced : List GameplayEvent) :
    (s.get_events buffer).1.event_buffer = [] ∧
    (s.get_events buffer).2.events = buffer.events ++ s.event_buffer ∧
    (s.get_events buffer).1.get_events buffer2 = ((s.get_events buffer).1, buffer2) ∧
    (((s.get_events buffer).1.produce_events produced).get_events buffer2).2.events =
      buffer2.events ++ produced ∧
    (((s.get_events buffer).1.produce_events produced).get_events buffer2).1.event_buffer
      = [] := by
  refine ⟨rfl, rfl, ?_, by simp [OfflineSystem.get_events, OfflineSystem.produce_events], rfl⟩
  simp [OfflineSystem.get_events]

/-- C6: on the offline backend, `connect_to_login_server` from a fresh
system followed by `get_events` drains exactly the event sequence
`[LoginServerConnected { character_servers, login_data }]` and nothing
else, for any credentials. -/
theorem connectToLoginServerEventSequence (now : Nat)
    (version : SupportedPacketVersion) (address : Nat) (username password : String) :
    (((OfflineSystem.new now).1.connect_to_login_server version address username password).get_events
        (OfflineSystem.new now).2).2.events =
      [OfflineSystem.offlineLoginServerConnectedEvent] := by
  simp [OfflineSystem.new, OfflineSystem.connect_to_login_server, OfflineSystem.get_events,
    GameplayEventBuffer.new]

/-- C10: `OfflineSystem::connect_to_login_server` is credential-independent:
any two calls on the same state, whatever the addresses, usernames and
passwords, produce identical states; each sets the login-connected flag and
appends exactly one `LoginServerConnected` event with one character server
named "Korangar Offline", account id 0, login ids 0 and sex Female. -/
theorem connectToLoginServerCredentialIndependence (s : OfflineSystem)
    (v1 v2 : SupportedPacketVersion) (a1 a2 : Nat) (u1 u2 p1 p2 : String) :
    s.connect_to_login_server v1 a1 u1 p1 = s.connect_to_login_server v2 a2 u2 p2 ∧
    (s.connect_to_login_server v1 a1 u1 p1).is_login_server_connected = true ∧
    (s.connect_to_login_server v1 a1 u1 p1).event_buffer =
      s.event_buffer ++
        [GameplayEvent.LoginServerConnected
          [{ server_address := [0, 0, 0, 0]
             port := 1234
             name := "Korangar Offline"
             user_count := 0
             server_type := 0
             display_new := 0 }]
          { account_id := 0, login_id1 := 0, login_id2 := 0, sex := Sex.Female }] :=
  ⟨rfl, rfl, rfl⟩

end Korangar
